import Mathlib

/-
Verification of the malgo data-converter wrapper (`data_converter.go`)
against its specification.

The repository is a thin Go wrapper around a native audio engine.  The
wrapper code (config translation, sentinel selection for nil buffers,
integer conversions, error branches) is embedded directly from the source.
The engine behind the foreign calls is not part of the repository source,
so its frame-accounting contract is modelled from the specification; every
such definition carries a doc comment starting with "Modelled from the
spec:".
-/

namespace Malgo

/-- Sample format enumeration, mirroring the `FormatType` values referenced
by `ConverterConfig` (unknown, unsigned8, signed16, signed24, signed32,
float32). -/
inductive FormatType where
  | unknown
  | u8
  | s16
  | s24
  | s32
  | f32
deriving DecidableEq, Repr

/-- Dither mode enumeration `DitherModeType`: none, rectangular, triangular. -/
inductive DitherModeType where
  | none
  | rectangular
  | triangular
deriving DecidableEq, Repr

/-- Channel mix mode enumeration `ChannelMixModeType`: the simple weighted
default policy, or a custom weight matrix. -/
inductive ChannelMixModeType where
  | simpleWeighted
  | customWeights
deriving DecidableEq, Repr

/-- Resampling algorithm enumeration: linear interpolation (default) or the
higher quality windowed sinc alternative. -/
inductive ResampleAlgorithmType where
  | linear
  | windowedSinc
deriving DecidableEq, Repr

/-- Sub-configuration for the linear resampling algorithm (`Resampling.Linear`):
the low-pass filter order. Go field type is `int`. -/
structure LinearResampleConfig where
  LpfOrder : Int
deriving DecidableEq, Repr

/-- Resampling sub-configuration (`ResampleConfig`): algorithm plus the
linear-algorithm parameters. -/
structure ResampleConfig where
  Algorithm : ResampleAlgorithmType
  Linear : LinearResampleConfig
deriving DecidableEq, Repr

/-- The Go `ConverterConfig` struct (data_converter.go lines 9-21).  Integer
fields use Go `int`, embedded as `Int`. -/
structure ConverterConfig where
  FormatIn : FormatType
  FormatOut : FormatType
  ChannelsIn : Int
  ChannelsOut : Int
  SampleRateIn : Int
  SampleRateOut : Int
  DitherMode : DitherModeType
  ChannelMixMode : ChannelMixModeType
  Resampling : ResampleConfig
deriving DecidableEq, Repr

/-- Conversion of a Go `int` to `C.ma_uint32`: reinterpretation modulo 2^32.
Go integer conversions truncate to the target width without any sign check. -/
def goIntToUint32 (i : Int) : Nat := (i % (2 ^ 32 : Int)).toNat

/-- Conversion of a Go `int` to `C.ma_uint64`: reinterpretation modulo 2^64.
A negative argument becomes a huge unsigned value. -/
def goIntToUint64 (i : Int) : Nat := (i % (2 ^ 64 : Int)).toNat

/-- Conversion of a `C.ma_uint64` back to a Go `int` (64-bit signed):
reinterpretation modulo 2^64 into the signed range. -/
def uint64ToGoInt (n : Nat) : Int :=
  if n % 2 ^ 64 < 2 ^ 63 then (n % 2 ^ 64 : Int) else (n % 2 ^ 64 : Int) - 2 ^ 64

/-- The native `ma_data_converter_config` record: the fields the wrapper
assigns at lines 46-53, together with the dither and channel-mix modes that
only `ma_data_converter_config_init_default` sets. -/
structure MaDataConverterConfig where
  formatIn : FormatType
  formatOut : FormatType
  channelsIn : Nat
  channelsOut : Nat
  sampleRateIn : Nat
  sampleRateOut : Nat
  ditherMode : DitherModeType
  channelMixMode : ChannelMixModeType
  resampleAlgorithm : ResampleAlgorithmType
  lpfOrder : Nat
deriving DecidableEq, Repr

/-- Modelled from the spec: `ma_data_converter_config_init_default` is not in
the repository source.  It fills the native config with the engine defaults:
unknown formats, zero channels and rates, dither mode none, the simple
weighted channel-mix policy, and the linear resampling algorithm. -/
def maDataConverterConfigInitDefault : MaDataConverterConfig where
  formatIn := .unknown
  formatOut := .unknown
  channelsIn := 0
  channelsOut := 0
  sampleRateIn := 0
  sampleRateOut := 0
  ditherMode := .none
  channelMixMode := .simpleWeighted
  resampleAlgorithm := .linear
  lpfOrder := 0

/-- The config translation performed by `InitConverter` (lines 45-53): start
from the engine default config and overwrite exactly the fields the Go code
assigns.  The Go code does not assign `ditherMode` or `channelMixMode`, so
those keep their default values. -/
def translateConfig (config : ConverterConfig) : MaDataConverterConfig :=
  { maDataConverterConfigInitDefault with
    formatIn := config.FormatIn
    formatOut := config.FormatOut
    channelsIn := goIntToUint32 config.ChannelsIn
    channelsOut := goIntToUint32 config.ChannelsOut
    sampleRateIn := goIntToUint32 config.SampleRateIn
    sampleRateOut := goIntToUint32 config.SampleRateOut
    resampleAlgorithm := config.Resampling.Algorithm
    lpfOrder := goIntToUint32 config.Resampling.Linear.LpfOrder }

/-- Go-level error values surfaced by the wrapper: the `ErrOutOfMemory`
sentinel, and errors produced by `errorFromResult` from a nonzero native
result code. -/
inductive GoError where
  | outOfMemory
  | resultError (code : Nat)
deriving DecidableEq, Repr

/-- Modelled from the spec: `errorFromResult` lives outside the provided
source; it maps a nonzero native result code to a Go error value. -/
def errorFromResult (code : Nat) : GoError := .resultError code

/-- Validity of a translated configuration, per the construction-time checks
the spec requires: known formats, positive channel counts, positive sample
rates. -/
def ValidMaConfig (cfg : MaDataConverterConfig) : Prop :=
  cfg.formatIn ≠ .unknown ∧ cfg.formatOut ≠ .unknown ∧
  0 < cfg.channelsIn ∧ 0 < cfg.channelsOut ∧
  0 < cfg.sampleRateIn ∧ 0 < cfg.sampleRateOut

instance (cfg : MaDataConverterConfig) : Decidable (ValidMaConfig cfg) := by
  unfold ValidMaConfig; infer_instance

/-- The converter instance: the fixed native configuration plus the mutable
engine state.  `slack` is the resampler phase bookkeeping in units of
1/(rateIn*rateOut) of a second: after consuming `cIn` input frames and
producing `pOut` output frames from a fresh converter,
`slack = cIn * rateOut - pOut * rateIn`, the amount of buffered input time
not yet turned into output.  `totalOut` counts output frames produced so far
(the absolute output position used for sampling). -/
structure Converter where
  cfg : MaDataConverterConfig
  slack : Nat
  totalOut : Nat
deriving DecidableEq, Repr

/-- Modelled from the spec: `RequiredInputFrameCount` engine side — the
minimum number of input frames needed to produce at least `n` output frames
given the current phase, rounding up conservatively.  Producing `n` output
frames advances the read position by `n * rateIn` time units; `slack` units
are already buffered; each input frame supplies `rateOut` units.  Because a
zero input frame count produces zero output frames (the zero-input edge
policy of the expected-output query), producing any output needs at least
one input frame even when the buffered time already covers it: the result
is the exact minimum `m` with `expectedOutputFrames m` at least `n`. -/
def requiredInputFrames (rateIn rateOut slack n : Nat) : Nat :=
  if n = 0 then 0
  else max 1 ((n * rateIn - slack + (rateOut - 1)) / rateOut)

/-- Modelled from the spec: `ExpectedOutputFrameCount` engine side — the
number of output frames producible from exactly `m` input frames given the
current phase, i.e. the largest `n` whose required input is covered by the
buffered time plus `m * rateOut` fresh units.  If the input frame count is 0
the query returns 0. -/
def expectedOutputFrames (rateIn rateOut slack m : Nat) : Nat :=
  if m = 0 then 0 else (slack + m * rateOut) / rateIn

/-- Result of one engine processing call: frames consumed from the input,
frames produced to the output, and the slack (phase bookkeeping) afterwards. -/
structure EngineFrames where
  consumed : Nat
  produced : Nat
  slackAfter : Nat
deriving DecidableEq, Repr

/-- Modelled from the spec: the frame accounting of
`ma_data_converter_process_pcm_frames`.  Processing stops at whichever of
the two declared limits is reached first.  With the input sentinel the input
behaves as an infinite source of silence, so production is limited only by
the declared output count, and the reported consumed count is capped at the
declared input count.  Otherwise, when the declared output space covers
everything producible from the declared input, all input is consumed;
when output space is the limit, exactly the input required for the produced
frames is consumed. -/
def engineProcess (rateIn rateOut slack : Nat) (inSentinel : Bool)
    (frameCountIn frameCountOut : Nat) : EngineFrames :=
  match inSentinel with
  | true =>
    { consumed := min frameCountIn (requiredInputFrames rateIn rateOut slack frameCountOut)
      produced := frameCountOut
      slackAfter := slack + (requiredInputFrames rateIn rateOut slack frameCountOut) * rateOut
        - frameCountOut * rateIn }
  | false =>
    if expectedOutputFrames rateIn rateOut slack frameCountIn ≤ frameCountOut then
    { consumed := frameCountIn
      produced := expectedOutputFrames rateIn rateOut slack frameCountIn
      slackAfter := slack + frameCountIn * rateOut
        - (expectedOutputFrames rateIn rateOut slack frameCountIn) * rateIn }
    else
      { consumed := requiredInputFrames rateIn rateOut slack frameCountOut
        produced := frameCountOut
        slackAfter := slack + (requiredInputFrames rateIn rateOut slack frameCountOut) * rateOut
          - frameCountOut * rateIn }

/-- A Go byte slice: `none` is the nil slice, `some l` a non-nil slice with
contents `l`.  A non-nil slice may be empty. -/
def GoSlice := Option (List Nat)

instance : DecidableEq GoSlice := by unfold GoSlice; infer_instance

/-- Length of a Go slice; `len` of the nil slice is 0. -/
def goSliceLen (s : GoSlice) : Nat :=
  match s with
  | Option.none => 0
  | Option.some l => l.length

/-- The null-pointer test the wrapper performs on each buffer argument
(lines 119 and 126): `len(p) == 0 || p == nil`.  When true the wrapper
passes the native call a null pointer, selecting the sentinel behaviour. -/
def cPtrIsNull (s : GoSlice) : Bool :=
  goSliceLen s == 0 || s == (Option.none : Option (List Nat))

/-- The Go-level return value of `ProcessFrames`: the two frame counts and
the error, mirroring `(int, int, error)`. -/
structure ProcessReturn where
  framesIn : Int
  framesOut : Int
  err : Option GoError
deriving DecidableEq, Repr

/-- The tail of the Go `ProcessFrames` (lines 135-141) as a function of the
native call outcome: a nonzero result aborts with `(0, 0, err)`; success
converts the updated native counts back to Go ints with a nil error. -/
def goReturnOfEngine (outcome : Except GoError (Nat × Nat)) : ProcessReturn :=
  match outcome with
  | .error e => { framesIn := 0, framesOut := 0, err := some e }
  | .ok (cIn, cOut) =>
      { framesIn := uint64ToGoInt cIn, framesOut := uint64ToGoInt cOut, err := none }

/-- The Go `ProcessFrames` method (lines 117-141): select the sentinel for
each buffer by the null-pointer test, convert both frame counts to unsigned
64-bit, run the engine, and return the updated counts (the engine state is
returned explicitly in place of the in-place mutation through the handle). -/
def ProcessFrames (c : Converter) (pFramesIn : GoSlice) (frameCountIn : Int)
    (pFramesOut : GoSlice) (frameCountOut : Int) : ProcessReturn × Converter :=
  let inSentinel := cPtrIsNull pFramesIn
  let cFrameCountIn := goIntToUint64 frameCountIn
  let cFrameCountOut := goIntToUint64 frameCountOut
  let r := engineProcess c.cfg.sampleRateIn c.cfg.sampleRateOut c.slack
      inSentinel cFrameCountIn cFrameCountOut
  (goReturnOfEngine (.ok (r.consumed, r.produced)),
   { c with slack := r.slackAfter, totalOut := c.totalOut + r.produced })

/-- The Go `RequiredInputFrameCount` method (lines 81-91): convert the
argument to unsigned 64-bit, query the engine, convert the answer back. -/
def RequiredInputFrameCount (c : Converter) (outputFrameCount : Int) :
    Int × Option GoError :=
  (uint64ToGoInt (requiredInputFrames c.cfg.sampleRateIn c.cfg.sampleRateOut
      c.slack (goIntToUint64 outputFrameCount)), none)

/-- The Go `ExpectOutputFrameCount` method (lines 94-104): convert the
argument to unsigned 64-bit, query the engine, convert the answer back. -/
def ExpectOutputFrameCount (c : Converter) (inputFrameCount : Int) :
    Int × Option GoError :=
  (uint64ToGoInt (expectedOutputFrames c.cfg.sampleRateIn c.cfg.sampleRateOut
      c.slack (goIntToUint64 inputFrameCount)), none)

/-- Outcome of `InitConverter`: the Go return pair plus whether the single
fixed allocation is still held at return (by the returned converter). -/
structure InitOutcome where
  converter : Option Converter
  err : Option GoError
  allocRetained : Bool
deriving DecidableEq, Repr

/-- The Go `InitConverter` (lines 36-62), parametrised by the two external
outcomes: whether `ma_malloc` succeeds, and the native init result code.  A
failed allocation reports `ErrOutOfMemory`; a nonzero init result frees the
allocation and reports the mapped error; otherwise the ready converter
(fresh engine state) is returned. -/
def InitConverter (allocOk : Bool) (initResult : Nat)
    (config : ConverterConfig) : InitOutcome :=
  if allocOk = false then
    { converter := none, err := some .outOfMemory, allocRetained := false }
  else if initResult ≠ 0 then
    { converter := none, err := some (errorFromResult initResult),
      allocRetained := false }
  else
    { converter := some { cfg := translateConfig config, slack := 0, totalOut := 0 },
      err := none, allocRetained := true }

/-- Linear interpolation between two samples. -/
def lerp (x y t : ℚ) : ℚ := x + (y - x) * t

/-- Modelled from the spec: an input sample source, mapping input frame index
and channel index to a working-precision sample.  The silent source is the
infinite buffer of zeros the input sentinel denotes. -/
def silenceSource : Nat → Nat → ℚ := fun _ _ => 0

/-- Modelled from the spec: one output frame of the pipeline.  Output frame
`t` reads the input at time `t * rateIn / rateOut` input frames: each input
channel is linearly interpolated between the two surrounding input frames,
then the channel mixer applies its weight matrix row by row. -/
def renderOutputFrame (rateIn rateOut channelsIn channelsOut : Nat)
    (weights : Nat → Nat → ℚ) (src : Nat → Nat → ℚ) (t : Nat) : List ℚ :=
  let base := t * rateIn / rateOut
  let frac : ℚ := ((t * rateIn % rateOut : Nat) : ℚ) / (rateOut : ℚ)
  (List.range channelsOut).map fun j =>
    ((List.range channelsIn).map fun i =>
      weights j i * lerp (src base i) (src (base + 1) i) frac).sum

/-- The frames a `ProcessFrames` call writes to the output buffer: nothing
when the output sentinel is selected (seek); otherwise the rendered frames
for the produced range, reading silence when the input sentinel is selected
and the decoded input buffer otherwise.  `decode` abstracts the
format-decoding of the caller buffer, which is engine-internal. -/
def ProcessFramesOutput (c : Converter) (weights : Nat → Nat → ℚ)
    (decode : GoSlice → Nat → Nat → ℚ) (pFramesIn : GoSlice) (frameCountIn : Int)
    (pFramesOut : GoSlice) (frameCountOut : Int) : List (List ℚ) :=
  if cPtrIsNull pFramesOut then []
  else
    let src := if cPtrIsNull pFramesIn then silenceSource else decode pFramesIn
    let r := engineProcess c.cfg.sampleRateIn c.cfg.sampleRateOut c.slack
        (cPtrIsNull pFramesIn) (goIntToUint64 frameCountIn) (goIntToUint64 frameCountOut)
    (List.range r.produced).map fun j =>
      renderOutputFrame c.cfg.sampleRateIn c.cfg.sampleRateOut
        c.cfg.channelsIn c.cfg.channelsOut weights src (c.totalOut + j)

/-- The concrete Go configuration of the specified scenario: signed16 stereo
at 44100 Hz to float32 mono at 48000 Hz with linear resampling. -/
def scenarioGoConfig : ConverterConfig where
  FormatIn := .s16
  FormatOut := .f32
  ChannelsIn := 2
  ChannelsOut := 1
  SampleRateIn := 44100
  SampleRateOut := 48000
  DitherMode := .none
  ChannelMixMode := .simpleWeighted
  Resampling := { Algorithm := .linear, Linear := { LpfOrder := 4 } }

/-- The freshly constructed converter for the scenario configuration. -/
def scenarioConverter : Converter where
  cfg := translateConfig scenarioGoConfig
  slack := 0
  totalOut := 0

/-- A Go configuration with equal input and output sample rates (format and
channel conversion only). -/
def equalRateGoConfig : ConverterConfig where
  FormatIn := .s16
  FormatOut := .f32
  ChannelsIn := 2
  ChannelsOut := 1
  SampleRateIn := 48000
  SampleRateOut := 48000
  DitherMode := .none
  ChannelMixMode := .simpleWeighted
  Resampling := { Algorithm := .linear, Linear := { LpfOrder := 4 } }

/-- The freshly constructed converter for the equal-rate configuration. -/
def equalRateConverter : Converter where
  cfg := translateConfig equalRateGoConfig
  slack := 0
  totalOut := 0

/-- A Go configuration requesting triangular dithering and a custom channel
weight matrix — the two fields `InitConverter` fails to forward. -/
def moddedGoConfig : ConverterConfig where
  FormatIn := .f32
  FormatOut := .s16
  ChannelsIn := 2
  ChannelsOut := 2
  SampleRateIn := 48000
  SampleRateOut := 48000
  DitherMode := .triangular
  ChannelMixMode := .customWeights
  Resampling := { Algorithm := .linear, Linear := { LpfOrder := 4 } }

/-
Helper lemmas on the engine frame accounting.
-/

/-- Galois adjunction between the two frame-count queries, valid at every
phase: the required input count for `n` output frames fits in `m` declared
input frames exactly when `n` output frames are expected from `m` declared
input frames. -/
theorem requiredInputFrames_le_iff {a b s n m : Nat} (ha : 0 < a) (hb : 0 < b) :
    requiredInputFrames a b s n ≤ m ↔ n ≤ expectedOutputFrames a b s m := by
  unfold requiredInputFrames expectedOutputFrames
  rcases Nat.eq_zero_or_pos n with rfl | hn
  · simp
  · rw [if_neg (Nat.pos_iff_ne_zero.mp hn)]
    rcases Nat.eq_zero_or_pos m with rfl | hm
    · rw [if_pos rfl]
      exact iff_of_false (by simp [Nat.max_le]) (by omega)
    · rw [if_neg (Nat.pos_iff_ne_zero.mp hm), Nat.le_div_iff_mul_le ha, Nat.max_le,
        Nat.div_le_iff_le_mul_add_pred hb, Nat.mul_comm b m]
      constructor
      · rintro ⟨h1, h2⟩
        generalize n * a = X at h2 ⊢
        generalize m * b = Y at h2 ⊢
        omega
      · intro h
        refine ⟨hm, ?_⟩
        generalize n * a = X at h ⊢
        generalize m * b = Y at h ⊢
        omega

/-- The expected output count is monotone in the supplied input count. -/
theorem expectedOutputFrames_mono {a b s : Nat} {m m' : Nat} (h : m ≤ m') :
    expectedOutputFrames a b s m ≤ expectedOutputFrames a b s m' := by
  unfold expectedOutputFrames
  split
  · exact Nat.zero_le _
  · next hm =>
    rw [if_neg (by omega : ¬ m' = 0)]
    exact Nat.div_le_div_right (Nat.add_le_add_left (Nat.mul_le_mul h (Nat.le_refl b)) s)

/-- With equal rates and a reachable phase, the expected output count is the
input count. -/
theorem expectedOutputFrames_equal_rates {a s : Nat} (ha : 0 < a) (hs : s < a) (m : Nat) :
    expectedOutputFrames a a s m = m := by
  unfold expectedOutputFrames
  split
  · omega
  · rw [Nat.add_mul_div_right _ _ ha, Nat.div_eq_of_lt hs, Nat.zero_add]

/-- With equal rates and a reachable phase, the required input count is the
output count. -/
theorem requiredInputFrames_equal_rates {a s : Nat} (ha : 0 < a) (hs : s < a) (n : Nat) :
    requiredInputFrames a a s n = n := by
  unfold requiredInputFrames
  split
  · next h => omega
  · next h =>
    have hn : 0 < n := Nat.pos_of_ne_zero h
    have hna : a ≤ n * a := Nat.le_mul_of_pos_left a hn
    have hdiv : (n * a - s + (a - 1)) / a = n := by
      refine Nat.div_eq_of_lt_le ?_ ?_
      · generalize n * a = X at *
        omega
      · rw [Nat.succ_mul]
        generalize n * a = X at *
        omega
    rw [hdiv]
    omega

/-- Converting a small unsigned count back to a Go int is the identity. -/
theorem uint64ToGoInt_small {x : Nat} (hx : x < 2 ^ 63) : uint64ToGoInt x = (x : Int) := by
  unfold uint64ToGoInt
  split <;> omega

/-- Converting a small non-negative Go int to unsigned 64-bit is `toNat`. -/
theorem goIntToUint64_of_nonneg {i : Int} (h0 : 0 ≤ i) (h : i < 2 ^ 63) :
    goIntToUint64 i = i.toNat := by
  unfold goIntToUint64
  omega

/-- The engine never reports more consumed or produced frames than the two
declared counts. -/
theorem engineProcess_le {a b s : Nat} (ha : 0 < a) (hb : 0 < b) (isSent : Bool)
    (m cO : Nat) :
    (engineProcess a b s isSent m cO).consumed ≤ m ∧
    (engineProcess a b s isSent m cO).produced ≤ cO := by
  unfold engineProcess
  split
  · exact ⟨Nat.min_le_left _ _, Nat.le_refl _⟩
  · split
    · next hexp => exact ⟨Nat.le_refl m, hexp⟩
    · next hexp =>
      refine ⟨?_, Nat.le_refl cO⟩
      exact (requiredInputFrames_le_iff ha hb).mpr (Nat.le_of_lt (Nat.lt_of_not_le hexp))

/-- The pipeline applied to the silent source yields the zero frame at the
working precision: interpolating zeros gives zero and every mix-matrix row
maps the zero frame to zero. -/
theorem renderOutputFrame_silence (a b ci co : Nat) (w : Nat → Nat → ℚ) (t : Nat) :
    renderOutputFrame a b ci co w silenceSource t = List.replicate co 0 := by
  unfold renderOutputFrame silenceSource lerp
  have hz : ∀ j : Nat,
      ((List.range ci).map fun i => w j i * (0 + (0 - 0) * (((t * a % b : Nat) : ℚ) / (b : ℚ)))).sum
        = (0 : ℚ) := by
    intro j
    refine List.sum_eq_zero ?_
    intro x hx
    rcases List.mem_map.mp hx with ⟨i, _, rfl⟩
    ring
  calc ((List.range co).map fun j =>
          ((List.range ci).map fun i =>
            w j i * (0 + (0 - 0) * (((t * a % b : Nat) : ℚ) / (b : ℚ)))).sum)
      = (List.range co).map fun _ => (0 : ℚ) := by
        refine List.map_congr_left ?_
        intro j _
        exact hz j
    _ = List.replicate co 0 := by
        rw [List.map_const']
        rw [List.length_range]

/-- The null-pointer test reduces to the length test alone: the nil check in
`len(p) == 0 || p == nil` is redundant because the nil slice has length 0. -/
theorem cPtrIsNull_eq_lengthTest (s : GoSlice) : cPtrIsNull s = (goSliceLen s == 0) := by
  cases s with
  | none => rfl
  | some l =>
    show (l.length == 0 || false) = (l.length == 0)
    exact Bool.or_false _

/-- A buffer of nonzero length is never passed as a null pointer. -/
theorem cPtrIsNull_of_len_ne {s : GoSlice} (h : goSliceLen s ≠ 0) : cPtrIsNull s = false := by
  rw [cPtrIsNull_eq_lengthTest]
  simpa using h

/-
Claim theorems.
-/

/-- C1: the two frame-count queries are consistent inverses of the
processing pipeline.  For every valid rate pair and every phase, with no
restriction on the buffered slack: feeding `RequiredInputFrameCount n`
declared input frames through the engine processing yields at least `n`
output frames (whenever the output buffer holds at least `n`); declaring
`ExpectedOutputFrameCount m` as the output count produces exactly that many
output frames when at least `m` input frames are declared; and the required
count is conservative: the expected output of the required input covers
`n`. -/
theorem c1_queries_consistent_inverses (a b s : Nat) (ha : 0 < a) (hb : 0 < b) :
    (∀ n outCap, n ≤ outCap →
        n ≤ (engineProcess a b s false (requiredInputFrames a b s n) outCap).produced) ∧
    (∀ m avail, m ≤ avail →
        (engineProcess a b s false avail (expectedOutputFrames a b s m)).produced
          = expectedOutputFrames a b s m) ∧
    (∀ n, n ≤ expectedOutputFrames a b s (requiredInputFrames a b s n)) := by
  have part3 : ∀ n, n ≤ expectedOutputFrames a b s (requiredInputFrames a b s n) :=
    fun n => (requiredInputFrames_le_iff ha hb).mp (Nat.le_refl _)
  refine ⟨?_, ?_, part3⟩
  · intro n outCap hcap
    simp only [engineProcess]
    split
    · exact part3 n
    · exact hcap
  · intro m avail hm
    simp only [engineProcess]
    split
    · next hexp => exact Nat.le_antisymm hexp (expectedOutputFrames_mono hm)
    · rfl

/-- Witness for C1 at rates 3 in, 10 out, with buffered slack 7 — a state
reached from the fresh converter by one output-limited call, where the
slack already covers a whole output frame. -/
theorem c1_queries_consistent_inverses_witness :
    (1 ≤ (engineProcess 3 10 7 false (requiredInputFrames 3 10 7 1) 1).produced) ∧
    ((engineProcess 3 10 7 false 2 (expectedOutputFrames 3 10 7 1)).produced
        = expectedOutputFrames 3 10 7 1) ∧
    1 ≤ expectedOutputFrames 3 10 7 (requiredInputFrames 3 10 7 1) :=
  ⟨(c1_queries_consistent_inverses 3 10 7 (by decide) (by decide)).1 1 1 (by decide),
   (c1_queries_consistent_inverses 3 10 7 (by decide) (by decide)).2.1 1 2 (by decide),
   (c1_queries_consistent_inverses 3 10 7 (by decide) (by decide)).2.2 1⟩

/-- C3: when input and output sample rates are equal, both frame-count
queries are the identity on every non-negative in-range argument. -/
theorem c3_equal_rates_identity (c : Converter)
    (ha : 0 < c.cfg.sampleRateIn)
    (heq : c.cfg.sampleRateIn = c.cfg.sampleRateOut)
    (hs : c.slack < c.cfg.sampleRateIn)
    (n : Int) (hn0 : 0 ≤ n) (hn : n < 2 ^ 63) :
    ExpectOutputFrameCount c n = (n, none) ∧
    RequiredInputFrameCount c n = (n, none) := by
  have h64 : goIntToUint64 n = n.toNat := goIntToUint64_of_nonneg hn0 hn
  have hnt : n.toNat < 2 ^ 63 := by omega
  constructor
  · unfold ExpectOutputFrameCount
    rw [h64, ← heq, expectedOutputFrames_equal_rates ha hs, uint64ToGoInt_small hnt,
      Int.toNat_of_nonneg hn0]
  · unfold RequiredInputFrameCount
    rw [h64, ← heq, requiredInputFrames_equal_rates ha hs, uint64ToGoInt_small hnt,
      Int.toNat_of_nonneg hn0]

/-- Witness for C3 on the concrete equal-rate converter. -/
theorem c3_equal_rates_identity_witness :
    ExpectOutputFrameCount equalRateConverter 123 = (123, none) ∧
    RequiredInputFrameCount equalRateConverter 123 = (123, none) :=
  c3_equal_rates_identity equalRateConverter (by decide) (by decide) (by decide)
    123 (by decide) (by decide)

/-- C4: with the nil input buffer (the input sentinel) and a declared output
count `k`, `ProcessFrames` reports exactly `k` produced frames, the output
holds exactly `k` frames, and every written frame is the pipeline image of
the silent source — the zero frame at working precision, for any mix matrix
and any decode of the (absent) input bytes. -/
theorem c4_input_sentinel_silence (c : Converter) (hvalid : ValidMaConfig c.cfg)
    (weights : Nat → Nat → ℚ) (decode : GoSlice → Nat → Nat → ℚ)
    (frameCountIn : Int) (pOut : GoSlice) (hout : goSliceLen pOut ≠ 0)
    (k : Int) (hk0 : 0 ≤ k) (hk : k < 2 ^ 63) :
    (ProcessFrames c Option.none frameCountIn pOut k).1.framesOut = k ∧
    (ProcessFramesOutput c weights decode Option.none frameCountIn pOut k).length
      = k.toNat ∧
    ∀ fr ∈ ProcessFramesOutput c weights decode Option.none frameCountIn pOut k,
      fr = List.replicate c.cfg.channelsOut 0 := by
  have houtNull : cPtrIsNull pOut = false := cPtrIsNull_of_len_ne hout
  have h64 : goIntToUint64 k = k.toNat := goIntToUint64_of_nonneg hk0 hk
  have hnt : k.toNat < 2 ^ 63 := by omega
  refine ⟨?_, ?_, ?_⟩
  · show uint64ToGoInt (engineProcess c.cfg.sampleRateIn c.cfg.sampleRateOut c.slack
        (cPtrIsNull Option.none) (goIntToUint64 frameCountIn) (goIntToUint64 k)).produced = k
    show uint64ToGoInt (goIntToUint64 k) = k
    rw [h64, uint64ToGoInt_small hnt, Int.toNat_of_nonneg hk0]
  · simp only [ProcessFramesOutput, houtNull, Bool.false_eq_true, if_false,
      List.length_map, List.length_range]
    show (engineProcess c.cfg.sampleRateIn c.cfg.sampleRateOut c.slack
        (cPtrIsNull Option.none) (goIntToUint64 frameCountIn) (goIntToUint64 k)).produced
      = k.toNat
    show goIntToUint64 k = k.toNat
    exact h64
  · intro fr hfr
    simp only [ProcessFramesOutput, houtNull, Bool.false_eq_true, if_false] at hfr
    rcases List.mem_map.mp hfr with ⟨j, _, rfl⟩
    show renderOutputFrame c.cfg.sampleRateIn c.cfg.sampleRateOut c.cfg.channelsIn
        c.cfg.channelsOut weights silenceSource (c.totalOut + j)
      = List.replicate c.cfg.channelsOut 0
    exact renderOutputFrame_silence _ _ _ _ weights _

/-- Witness for C4 on the concrete scenario converter. -/
theorem c4_input_sentinel_silence_witness :
    (ProcessFrames scenarioConverter Option.none 7 (some (List.replicate 8 0)) 2).1.framesOut
      = 2 ∧
    (ProcessFramesOutput scenarioConverter (fun _ _ => 1) (fun _ _ _ => 0) Option.none 7
        (some (List.replicate 8 0)) 2).length = (2 : Int).toNat :=
  ⟨(c4_input_sentinel_silence scenarioConverter (by decide) (fun _ _ => 1) (fun _ _ _ => 0)
      7 (some (List.replicate 8 0)) (by decide) 2 (by decide) (by decide)).1,
   (c4_input_sentinel_silence scenarioConverter (by decide) (fun _ _ => 1) (fun _ _ _ => 0)
      7 (some (List.replicate 8 0)) (by decide) 2 (by decide) (by decide)).2.1⟩

/-- C5: with the nil output buffer (the seek sentinel) `ProcessFrames`
returns exactly the counts and advanced engine state of the same call with a
real output buffer, writes nothing, and — with the declared input count `k`
being the available input and the output limit not binding — consumes
exactly `k` frames. -/
theorem c5_output_sentinel_seek (c : Converter) (hvalid : ValidMaConfig c.cfg)
    (pIn : GoSlice) (hin : goSliceLen pIn ≠ 0)
    (weights : Nat → Nat → ℚ) (decode : GoSlice → Nat → Nat → ℚ)
    (k : Int) (hk0 : 0 ≤ k) (hk : k < 2 ^ 63)
    (outBuf : GoSlice) (outCap : Int)
    (hcap : expectedOutputFrames c.cfg.sampleRateIn c.cfg.sampleRateOut c.slack
        (goIntToUint64 k) ≤ goIntToUint64 outCap) :
    ProcessFrames c pIn k Option.none outCap = ProcessFrames c pIn k outBuf outCap ∧
    ProcessFramesOutput c weights decode pIn k Option.none outCap = [] ∧
    (ProcessFrames c pIn k Option.none outCap).1.framesIn = k := by
  have hinN : cPtrIsNull pIn = false := cPtrIsNull_of_len_ne hin
  have h64 : goIntToUint64 k = k.toNat := goIntToUint64_of_nonneg hk0 hk
  have hnt : k.toNat < 2 ^ 63 := by omega
  refine ⟨rfl, rfl, ?_⟩
  show uint64ToGoInt (engineProcess c.cfg.sampleRateIn c.cfg.sampleRateOut c.slack
      (cPtrIsNull pIn) (goIntToUint64 k) (goIntToUint64 outCap)).consumed = k
  rw [hinN]
  simp only [engineProcess]
  rw [if_pos hcap]
  show uint64ToGoInt (goIntToUint64 k) = k
  rw [h64, uint64ToGoInt_small hnt, Int.toNat_of_nonneg hk0]

/-- Witness for C5 on the concrete scenario converter. -/
theorem c5_output_sentinel_seek_witness :
    ProcessFrames scenarioConverter (some [1, 2, 3, 4]) 10 Option.none 100
      = ProcessFrames scenarioConverter (some [1, 2, 3, 4]) 10
          (some (List.replicate 40 0)) 100 ∧
    ProcessFramesOutput scenarioConverter (fun _ _ => 1) (fun _ _ _ => 0)
        (some [1, 2, 3, 4]) 10 Option.none 100 = [] ∧
    (ProcessFrames scenarioConverter (some [1, 2, 3, 4]) 10 Option.none 100).1.framesIn
      = 10 :=
  c5_output_sentinel_seek scenarioConverter (by decide) (some [1, 2, 3, 4]) (by decide)
    (fun _ _ => 1) (fun _ _ _ => 0) 10 (by decide) (by decide)
    (some (List.replicate 40 0)) 100 (by decide)

/-- C6: on every successful call the returned counts are the engine counts
and each is bounded by its requested count, with a nil error; when the
native call fails, the wrapper aborts and returns both counts as zero with
the error. -/
theorem c6_counts_and_error (c : Converter)
    (ha : 0 < c.cfg.sampleRateIn) (hb : 0 < c.cfg.sampleRateOut)
    (pIn pOut : GoSlice) (nIn nOut : Int)
    (h0In : 0 ≤ nIn) (hIn : nIn < 2 ^ 63) (h0Out : 0 ≤ nOut) (hOut : nOut < 2 ^ 63) :
    ((ProcessFrames c pIn nIn pOut nOut).1.err = none ∧
     0 ≤ (ProcessFrames c pIn nIn pOut nOut).1.framesIn ∧
     (ProcessFrames c pIn nIn pOut nOut).1.framesIn ≤ nIn ∧
     0 ≤ (ProcessFrames c pIn nIn pOut nOut).1.framesOut ∧
     (ProcessFrames c pIn nIn pOut nOut).1.framesOut ≤ nOut) ∧
    ∀ e : GoError, goReturnOfEngine (Except.error e)
      = { framesIn := 0, framesOut := 0, err := some e } := by
  have hbounds := engineProcess_le (s := c.slack) ha hb (cPtrIsNull pIn)
      (goIntToUint64 nIn) (goIntToUint64 nOut)
  have hInN : goIntToUint64 nIn = nIn.toNat := goIntToUint64_of_nonneg h0In hIn
  have hOutN : goIntToUint64 nOut = nOut.toNat := goIntToUint64_of_nonneg h0Out hOut
  set E := engineProcess c.cfg.sampleRateIn c.cfg.sampleRateOut c.slack (cPtrIsNull pIn)
      (goIntToUint64 nIn) (goIntToUint64 nOut) with hE
  have hcon : E.consumed ≤ nIn.toNat := hInN ▸ hbounds.1
  have hpro : E.produced ≤ nOut.toNat := hOutN ▸ hbounds.2
  have hc63 : E.consumed < 2 ^ 63 := by omega
  have hp63 : E.produced < 2 ^ 63 := by omega
  refine ⟨?_, fun e => rfl⟩
  have hshow : (ProcessFrames c pIn nIn pOut nOut).1
      = { framesIn := uint64ToGoInt E.consumed, framesOut := uint64ToGoInt E.produced,
          err := none } := rfl
  rw [hshow, uint64ToGoInt_small hc63, uint64ToGoInt_small hp63]
  dsimp only
  refine ⟨rfl, Int.ofNat_nonneg _, ?_, Int.ofNat_nonneg _, ?_⟩
  · omega
  · omega

/-- Witness for C6 on the concrete scenario converter. -/
theorem c6_counts_and_error_witness :
    (ProcessFrames scenarioConverter (some [1]) 5 (some [2]) 7).1.err = none ∧
    0 ≤ (ProcessFrames scenarioConverter (some [1]) 5 (some [2]) 7).1.framesIn ∧
    (ProcessFrames scenarioConverter (some [1]) 5 (some [2]) 7).1.framesIn ≤ 5 ∧
    0 ≤ (ProcessFrames scenarioConverter (some [1]) 5 (some [2]) 7).1.framesOut ∧
    (ProcessFrames scenarioConverter (some [1]) 5 (some [2]) 7).1.framesOut ≤ 7 :=
  (c6_counts_and_error scenarioConverter (by decide) (by decide) (some [1]) (some [2])
    5 7 (by decide) (by decide) (by decide) (by decide)).1

/-- C7: `InitConverter` returns a ready converter or an error, never both: a
failed allocation reports out-of-memory with nothing allocated; a rejected
engine initialisation frees the allocation and returns only the error; an
error return never carries a converter or a retained allocation. -/
theorem c7_init_all_or_nothing (allocOk : Bool) (initResult : Nat)
    (config : ConverterConfig) :
    ((InitConverter allocOk initResult config).converter.isSome
        ↔ (InitConverter allocOk initResult config).err = none) ∧
    (allocOk = false →
        (InitConverter allocOk initResult config).err = some GoError.outOfMemory ∧
        (InitConverter allocOk initResult config).converter = none) ∧
    (initResult ≠ 0 →
        (InitConverter true initResult config).err = some (errorFromResult initResult) ∧
        (InitConverter true initResult config).converter = none ∧
        (InitConverter true initResult config).allocRetained = false) ∧
    ((InitConverter allocOk initResult config).err.isSome →
        (InitConverter allocOk initResult config).allocRetained = false) := by
  cases allocOk <;> by_cases h : initResult = 0 <;> simp [InitConverter, h]

/-- Witness for C7: allocation failure and init failure at result code 5. -/
theorem c7_init_all_or_nothing_witness :
    (InitConverter false 5 scenarioGoConfig).err = some GoError.outOfMemory ∧
    (InitConverter true 5 scenarioGoConfig).converter = none ∧
    (InitConverter true 5 scenarioGoConfig).allocRetained = false :=
  ⟨((c7_init_all_or_nothing false 5 scenarioGoConfig).2.1 rfl).1,
   ((c7_init_all_or_nothing false 5 scenarioGoConfig).2.2.1 (by decide)).2.1,
   ((c7_init_all_or_nothing false 5 scenarioGoConfig).2.2.1 (by decide)).2.2⟩

/-- C2 (code bug evidence): on a configuration requesting triangular
dithering and a custom weight matrix, the converter `InitConverter` builds
carries the engine defaults instead — `InitConverter` assigns formats,
channels, rates and resampling into the native config (lines 46-53) but
never assigns `ditherMode` or `channelMixMode`, so both configuration fields
are silently dropped. -/
theorem c2_modes_dropped_at_init :
    (InitConverter true 0 moddedGoConfig).converter
      = some { cfg := translateConfig moddedGoConfig, slack := 0, totalOut := 0 } ∧
    moddedGoConfig.DitherMode = DitherModeType.triangular ∧
    moddedGoConfig.ChannelMixMode = ChannelMixModeType.customWeights ∧
    (translateConfig moddedGoConfig).ditherMode = DitherModeType.none ∧
    (translateConfig moddedGoConfig).channelMixMode = ChannelMixModeType.simpleWeighted :=
  ⟨rfl, rfl, rfl, rfl, rfl⟩

/-- C8: the concrete scenario — signed16 stereo 44100 Hz to float32 mono
48000 Hz, fresh converter.  `ExpectOutputFrameCount 1000` is 1088, within
one frame of the 44100→48000 ratio figure 1089, with no error; processing
1000 declared input frames from a non-nil buffer with room declared for
1089 output frames reports exactly 1000 frames consumed.  (Buffer sizing is
a caller obligation the wrapper never inspects, so short stand-in buffers
select the non-sentinel path.) -/
theorem c8_concrete_scenario :
    (ExpectOutputFrameCount scenarioConverter 1000).1 = 1088 ∧
    ((ExpectOutputFrameCount scenarioConverter 1000).1 - 1089).natAbs ≤ 1 ∧
    (ExpectOutputFrameCount scenarioConverter 1000).2 = none ∧
    (ProcessFrames scenarioConverter (some (List.replicate 8 0)) 1000
        (some (List.replicate 8 0)) 1089).1.framesIn = 1000 := by
  refine ⟨by decide, by decide, rfl, by decide⟩

/-- C9: sentinel selection at the public interface is by slice length, not
only nil-ness — the wrapper passes a null pointer exactly when the slice
length is 0, an empty non-nil input slice is processed identically to the
nil input slice, and an empty non-nil output slice discards output exactly
like the nil output slice. -/
theorem c9_sentinel_selected_by_length :
    (∀ s : GoSlice, cPtrIsNull s = true ↔ goSliceLen s = 0) ∧
    cPtrIsNull (some ([] : List Nat)) = true ∧
    (∀ (c : Converter) (nIn nOut : Int) (pOut : GoSlice),
        ProcessFrames c (some ([] : List Nat)) nIn pOut nOut
          = ProcessFrames c Option.none nIn pOut nOut) ∧
    (∀ (c : Converter) (weights : Nat → Nat → ℚ) (decode : GoSlice → Nat → Nat → ℚ)
        (nIn nOut : Int) (pIn : GoSlice),
        ProcessFramesOutput c weights decode pIn nIn (some ([] : List Nat)) nOut
          = ProcessFramesOutput c weights decode pIn nIn Option.none nOut) := by
  refine ⟨?_, rfl, fun c nIn nOut pOut => rfl, fun c w d nIn nOut pIn => rfl⟩
  intro s
  rw [cPtrIsNull_eq_lengthTest]
  simp

/-- C10: the wrapper performs no sign check on its frame-count arguments: a
negative Go int is reinterpreted modulo 2^64 into a huge unsigned count,
and both queries hand exactly that reinterpreted count to the engine. -/
theorem c10_negative_counts_reinterpreted (c : Converter) (i : Int)
    (hneg : i < 0) (hlow : -(2 ^ 63) ≤ i) :
    goIntToUint64 i = (i + 2 ^ 64).toNat ∧
    2 ^ 63 ≤ goIntToUint64 i ∧
    RequiredInputFrameCount c i
      = (uint64ToGoInt (requiredInputFrames c.cfg.sampleRateIn c.cfg.sampleRateOut c.slack
          (goIntToUint64 i)), none) ∧
    ExpectOutputFrameCount c i
      = (uint64ToGoInt (expectedOutputFrames c.cfg.sampleRateIn c.cfg.sampleRateOut c.slack
          (goIntToUint64 i)), none) := by
  refine ⟨?_, ?_, rfl, rfl⟩
  · unfold goIntToUint64
    omega
  · unfold goIntToUint64
    omega

/-- Witness for C10 at argument -1: the value handed to the engine is
2^64 - 1. -/
theorem c10_negative_counts_reinterpreted_witness :
    goIntToUint64 (-1) = ((-1) + 2 ^ 64).toNat ∧ 2 ^ 63 ≤ goIntToUint64 (-1) :=
  ⟨(c10_negative_counts_reinterpreted scenarioConverter (-1) (by decide) (by decide)).1,
   (c10_negative_counts_reinterpreted scenarioConverter (-1) (by decide) (by decide)).2.1⟩

end Malgo
